import Mathlib

/-!
Verification of the portfolio single-page application (`src/app/page.tsx`,
root layout in `src/unnamed/part_000`).

The page is declarative UI over React, react-three-fiber and framer-motion.
We shallowly embed the data model, the contact-form state machine, the
per-frame pose updates of the 3D primitives, the orbit-camera configuration
and the render order of the static lists, and prove the spec's claims about
them.  Behaviour that lives inside external libraries (browser-native form
validation, framer-motion's `whileInView` trigger, the drei orbit-controls
clamp, the Canvas/Suspense fallback machinery) is modelled from the spec's
description and marked as such in the doc comment of each definition.
-/

namespace Portfolio

/-! ## Static content registry (from `Portfolio3DApp`, `Skills`, `Navbar`) -/

/-- A project record, as the literals in `Portfolio3DApp`'s `projects` array. -/
structure Project where
  title : String
  description : String
  tags : List String
  href : String
deriving DecidableEq, Repr

/-- The `projects` array declared in `Portfolio3DApp` (page.tsx lines 678-706). -/
def projects : List Project :=
  [ { title := "AI Worksheet Pro"
    , description := "Multi‑curriculum generator with quizzes, vocabulary, and export workflows."
    , tags := ["React", "Node", "MySQL", "RAG"]
    , href := "https://aiworksheetpro.com" }
  , { title := "Gems Global Jewels"
    , description := "Jewellery admin portal with dynamic SKUs, Cloudinary media, and Redis caching."
    , tags := ["React", "Express", "Redis", "Cloudinary"]
    , href := "https://gemsglobaljewels.com" }
  , { title := "ETL – Pet Rescue Charity"
    , description := "Talend pipelines to Oracle star schema; analytics and dashboards."
    , tags := ["Talend", "Oracle", "SQL"]
    , href := "#" }
  , { title := "Realtime Dashboard"
    , description := "WebSocket powered metrics with streaming charts and auth."
    , tags := ["Next.js", "WebSocket", "Redis"]
    , href := "#" } ]

/-- The `skills` list declared in the `Skills` component (page.tsx lines 612-622). -/
def skills : List String :=
  [ "React/Next.js", "Node.js", "TypeScript", "Tailwind CSS", "React Three Fiber"
  , "PostgreSQL/MySQL", "Redis", "Docker", "CI/CD" ]

/-- A navbar link, as the literals in `Navbar`'s `links` array. -/
structure NavLink where
  href : String
  label : String
deriving DecidableEq, Repr

/-- The `links` array declared in `Navbar` (page.tsx lines 520-525). -/
def navbarLinks : List NavLink :=
  [ { href := "#about", label := "About" }
  , { href := "#projects", label := "Projects" }
  , { href := "#skills", label := "Skills" }
  , { href := "#contact", label := "Contact" } ]

/-- The `id` props passed to `Section` by `Portfolio3DApp`, in document order
(page.tsx lines 713-760). -/
def sectionIds : List String :=
  ["about", "projects", "skills", "experience", "contact"]

/-- The in-page anchors the rendered document offers as scroll targets: one
`#id` per rendered section. -/
def pageAnchors : List String := sectionIds.map (fun i => "#" ++ i)

/-! ## Contact form (from `ContactForm`, page.tsx lines 499-516) -/

/-- The `sent` state owned by `ContactForm`: `useState(false)`. -/
structure ContactFormState where
  sent : Bool
deriving DecidableEq, Repr

/-- The initial contact-form state, from `useState(false)`. -/
def ContactForm.init : ContactFormState := { sent := false }

/-- A submit event as seen by `onSubmit`: the current field contents plus the
`defaultPrevented` flag that `e.preventDefault()` sets. -/
structure FormEvent where
  name : String
  email : String
  subject : String
  message : String
  defaultPrevented : Bool
deriving DecidableEq, Repr

/-- The `onSubmit` handler of `ContactForm`: it calls `e.preventDefault()` and
`setSent(true)`, unconditionally — it inspects no field. Returns the updated
event and the updated component state. -/
def ContactForm.onSubmit (e : FormEvent) (_s : ContactFormState) :
    FormEvent × ContactFormState :=
  ({ e with defaultPrevented := true }, { sent := true })

/-- Folding a sequence of delivered submit events through the handler,
starting from the initial state. -/
def ContactForm.submitAll (es : List FormEvent) : ContactFormState :=
  es.foldl (fun s e => (ContactForm.onSubmit e s).snd) ContactForm.init

/-- One form control of `ContactForm`, carrying the validation-relevant
attributes written in the JSX: `required` and the input `type`. -/
structure FormField where
  placeholder : String
  required : Bool
  inputType : String
deriving DecidableEq, Repr

/-- The four controls of `ContactForm` in document order (page.tsx lines
507-510): name and email inputs are `required`, the email input has
`type="email"`, subject is optional, the message textarea is `required`. -/
def contactFields : List FormField :=
  [ { placeholder := "Full name", required := true, inputType := "text" }
  , { placeholder := "Email", required := true, inputType := "email" }
  , { placeholder := "Subject", required := false, inputType := "text" }
  , { placeholder := "Message", required := true, inputType := "textarea" } ]

/-- The values a user has typed into the four controls. -/
structure FormValues where
  name : String
  email : String
  subject : String
  message : String
deriving DecidableEq, Repr

/-- Modelled from the spec: the browser's notion of a well-formed email for a
`type="email"` control ("must match a well-formed email pattern") — exactly
one `@` separating a non-empty local part from a non-empty domain. The
repository contains no validation code of its own; this stands in for the
browser's constraint validation. -/
def isWellFormedEmail (s : String) : Bool :=
  let cs := s.toList
  (cs.count '@' == 1) && (cs.head? != some '@') && (cs.getLast? != some '@')

/-- Modelled from the spec: browser-native constraint validation of one
control — a `required` control must be non-empty, and a `type="email"`
control with a non-empty value must hold a well-formed email. -/
def fieldOk (f : FormField) (v : String) : Bool :=
  (!f.required || !v.isEmpty) &&
  (f.inputType != "email" || v.isEmpty || isWellFormedEmail v)

/-- Modelled from the spec: the whole form passes browser-native validation
when every control passes against its typed value. -/
def formValid (vals : FormValues) : Bool :=
  (List.zip contactFields [vals.name, vals.email, vals.subject, vals.message]).all
    (fun p => fieldOk p.fst p.snd)

/-- Modelled from the spec: a submit attempt as mediated by the browser —
"form field validation failure → submission is blocked, `sent` state is not
changed"; only a valid form delivers the submit event to `onSubmit`. -/
def ContactForm.browserSubmit (vals : FormValues) (s : ContactFormState) :
    ContactFormState :=
  if formValid vals then
    (ContactForm.onSubmit
      { name := vals.name, email := vals.email, subject := vals.subject
      , message := vals.message, defaultPrevented := false } s).snd
  else s

/-! ## Composite sections (from `Section`, page.tsx lines 439-461) -/

/-- The animation props of one framer-motion block: `initial`, `whileInView`,
`viewport.once`, and the transition timing (in seconds, as rationals). -/
structure MotionBlock where
  initialOpacity : ℚ
  initialY : ℚ
  inViewOpacity : ℚ
  inViewY : ℚ
  viewportOnce : Bool
  duration : ℚ
  delay : ℚ
deriving DecidableEq, Repr

/-- The `motion.h2` heading block of `Section`: `initial={{opacity:0,y:12}}`,
`whileInView={{opacity:1,y:0}}`, `viewport={{once:true}}`,
`transition={{duration:0.6}}`. -/
def Section.headingMotion : MotionBlock :=
  { initialOpacity := 0, initialY := 12, inViewOpacity := 1, inViewY := 0
  , viewportOnce := true, duration := 6/10, delay := 0 }

/-- The `motion.div` content block of `Section`: same as the heading block
with `transition={{duration:0.6, delay:0.1}}`. -/
def Section.contentMotion : MotionBlock :=
  { initialOpacity := 0, initialY := 12, inViewOpacity := 1, inViewY := 0
  , viewportOnce := true, duration := 6/10, delay := 1/10 }

/-- Modelled from the spec: framer-motion's `whileInView` viewport trigger.
`evs` is the sequence of visibility samples (`true` = the block is in the
viewport); `fired` records whether the entrance transition is currently
triggered. A transition fires on becoming visible while not triggered; with
`once = true` the triggered state latches forever, with `once = false` it is
released when the block leaves the viewport. Returns how many times the
entrance transition fires over the sequence. -/
def viewTriggerCount (once : Bool) (fired : Bool) : List Bool → Nat
  | [] => 0
  | v :: evs =>
      if v then (if fired then 0 else 1) + viewTriggerCount once true evs
      else viewTriggerCount once (once && fired) evs

/-! ## Project cards (from `ProjectCard`, page.tsx lines 463-497) -/

/-- The props of `ProjectCard`: `title` and `description` are required,
`tags` and `href` are optional (`tags?: string[]`, `href?: string`). -/
structure ProjectCardProps where
  title : String
  description : String
  tags : Option (List String)
  href : Option String
deriving DecidableEq, Repr

/-- The markup a project card renders: the anchor's `href`, the heading, the
description paragraph and one tag pill per tag. -/
structure RenderedCard where
  href : String
  title : String
  description : String
  tagPills : List String
deriving DecidableEq, Repr

/-- The `ProjectCard` component: destructures its props with defaults `tags = []` and
`href = "#"`, then renders the card with one pill per tag, in order. -/
def ProjectCard (props : ProjectCardProps) : RenderedCard :=
  { href := props.href.getD "#"
  , title := props.title
  , description := props.description
  , tagPills := (props.tags.getD []).map (fun t => t) }

/-- The projects gallery rendered by `Portfolio3DApp` (page.tsx lines
737-747): one `ProjectCard {...p}` per element of `projects`, in order. -/
def renderedGallery : List RenderedCard :=
  projects.map (fun p =>
    ProjectCard { title := p.title, description := p.description
                , tags := some p.tags, href := some p.href })

/-- The skills grid rendered by `Skills` (page.tsx lines 624-630): one cell
per element of `skills`, in order, each showing the skill string. -/
def renderedSkillsGrid : List String := skills.map (fun s => s)

/-! ## 3D hero scene (from `SpinningTetra`, `FloatingKnot`, `PortfolioScene`,
`Hero`, page.tsx lines 357-430 and 544-609) -/

/-- The rotation angles of a 3D primitive (radians, as rationals). -/
structure Pose where
  rotX : ℚ
  rotY : ℚ
  rotZ : ℚ
deriving DecidableEq, Repr

/-- The `useFrame` callback of `SpinningTetra`: `rotation.x += delta * 0.3;
rotation.y += delta * 0.5`. -/
def SpinningTetra.step (p : Pose) (delta : ℚ) : Pose :=
  { p with rotX := p.rotX + delta * (3/10), rotY := p.rotY + delta * (5/10) }

/-- The `useFrame` callback of `FloatingKnot`: `rotation.x += delta * 0.25;
rotation.z += delta * 0.15`. -/
def FloatingKnot.step (p : Pose) (delta : ℚ) : Pose :=
  { p with rotX := p.rotX + delta * (25/100), rotZ := p.rotZ + delta * (15/100) }

/-- Running a sequence of frames (each with its elapsed-time `delta`) through
`SpinningTetra`'s per-frame update. -/
def SpinningTetra.run (p : Pose) (ds : List ℚ) : Pose :=
  ds.foldl SpinningTetra.step p

/-- Running a sequence of frames through `FloatingKnot`'s per-frame update. -/
def FloatingKnot.run (p : Pose) (ds : List ℚ) : Pose :=
  ds.foldl FloatingKnot.step p

/-- The props `PortfolioScene` passes to `OrbitControls` (page.tsx line 427):
`enablePan={false} maxDistance={8} minDistance={3}`. -/
structure OrbitConfig where
  enablePan : Bool
  maxDistance : ℚ
  minDistance : ℚ
deriving DecidableEq, Repr

/-- The orbit-controls configuration of the hero scene. -/
def PortfolioScene.orbitControls : OrbitConfig :=
  { enablePan := false, maxDistance := 8, minDistance := 3 }

/-- The orbit camera's state: the focal target it orbits (pan moves it) and
the zoom distance from that target. -/
structure CameraState where
  target : ℚ × ℚ × ℚ
  distance : ℚ
deriving DecidableEq, Repr

/-- A user orbit interaction: rotating the viewpoint, dollying (zoom), or
panning. -/
inductive OrbitEvent where
  | rotate (dTheta dPhi : ℚ)
  | zoom (dolly : ℚ)
  | pan (dx dy : ℚ)
deriving DecidableEq, Repr

/-- Modelled from the spec: the drei/three.js orbit-camera controller —
"orbit-drag, with panning disabled and zoom distance clamped to a fixed
near/far range". Rotation leaves target and distance alone; zoom moves the
distance and clamps it into `[minDistance, maxDistance]`; pan moves the
target only when `enablePan` is set. -/
def applyOrbit (cfg : OrbitConfig) (cam : CameraState) : OrbitEvent → CameraState
  | .rotate _ _ => cam
  | .zoom dolly =>
      { cam with distance := min cfg.maxDistance (max cfg.minDistance (cam.distance + dolly)) }
  | .pan dx dy =>
      if cfg.enablePan then
        { cam with target := (cam.target.1 + dx, cam.target.2.1 + dy, cam.target.2.2) }
      else cam

/-- Folding a sequence of orbit interactions through the hero scene's
controller configuration. -/
def runOrbit (cam : CameraState) (evs : List OrbitEvent) : CameraState :=
  evs.foldl (applyOrbit PortfolioScene.orbitControls) cam

/-- What the hero's canvas area shows. -/
inductive HeroSceneRender where
  | empty
  | scene
deriving DecidableEq, Repr

/-- The `fallback` prop `Hero` passes to `Suspense` (page.tsx line 551):
`fallback={null}`, i.e. nothing is rendered while 3D assets load. -/
def Hero.suspenseFallback : Option HeroSceneRender := none

/-- Modelled from the spec: the Canvas/Suspense rendering of the hero scene
area — "if the 3D rendering context fails to initialize the scene area must
degrade to an empty placeholder rather than crashing the page; while 3D
assets are loading, a null/blank fallback is shown". A `none` fallback
renders as the empty placeholder. -/
def Hero.renderCanvas (ctxOk : Bool) (assetsLoaded : Bool) : HeroSceneRender :=
  if !ctxOk then .empty
  else if !assetsLoaded then (Hero.suspenseFallback.getD .empty)
  else .scene

/-! ## Helper lemmas -/

/-- Once `sent` is true, folding further submit events through `onSubmit`
keeps it true. -/
theorem foldl_onSubmit_sent (es : List FormEvent) :
    (es.foldl (fun s e => (ContactForm.onSubmit e s).snd)
      { sent := true : ContactFormState }).sent = true := by
  induction es with
  | nil => rfl
  | cons e es ih => simpa [ContactForm.onSubmit] using ih

/-! ## Claims about the contact form -/

/-- C1: the contact form owns a single boolean `sent`, initialized `false`;
every submit event delivered to the handler calls `preventDefault` and sets
`sent` to `true`; hence after any non-empty sequence of submits `sent` is
`true`, later submits leave it `true`, and no operation of the component
(its only operations being initialization and `onSubmit`) resets it to
`false`. -/
theorem contactForm_sent_latch :
    ContactForm.init.sent = false ∧
    (∀ (e : FormEvent) (s : ContactFormState),
      (ContactForm.onSubmit e s).fst.defaultPrevented = true ∧
      (ContactForm.onSubmit e s).snd.sent = true) ∧
    (∀ (e : FormEvent) (es : List FormEvent),
      (ContactForm.submitAll (e :: es)).sent = true) := by
  refine ⟨rfl, fun e s => ⟨rfl, rfl⟩, fun e es => ?_⟩
  simpa [ContactForm.submitAll, ContactForm.onSubmit] using foldl_onSubmit_sent es

/-- C9: the component performs no validation of its own — the handler's
result is the same whatever the field contents and prior state are: default
prevented, `sent` set to `true`. The blocking of invalid input is carried by
the JSX attributes alone: `required` on name, email and message, and
`type="email"` on the email input. -/
theorem contactForm_handler_unconditional :
    (∀ (e : FormEvent) (s : ContactFormState),
      (ContactForm.onSubmit e s).fst.defaultPrevented = true ∧
      (ContactForm.onSubmit e s).snd.sent = true) ∧
    (∀ (e e' : FormEvent) (s s' : ContactFormState),
      (ContactForm.onSubmit e s).snd = (ContactForm.onSubmit e' s').snd) ∧
    contactFields.map (fun f => f.required) = [true, true, false, true] ∧
    contactFields.map (fun f => f.inputType) = ["text", "email", "text", "textarea"] := by
  exact ⟨fun e s => ⟨rfl, rfl⟩, fun e e' s s' => rfl, rfl, rfl⟩

/-- C2: a submit attempt whose email value is not a well-formed email (for
example the literal `"not-an-email"`), or with a required field (name,
email, message) left empty, is blocked by browser-native validation and
leaves the `sent` state unchanged. -/
theorem contactForm_invalid_submission_blocked
    (vals : FormValues) (s : ContactFormState)
    (h : vals.email = "not-an-email" ∨ vals.name = "" ∨ vals.email = "" ∨
         vals.message = "") :
    ContactForm.browserSubmit vals s = s := by
  have hv : formValid vals = false := by
    have he : "".isEmpty = true := by decide
    rcases h with h | h | h | h <;>
      simp [formValid, contactFields, fieldOk, h, isWellFormedEmail, he]
  simp [ContactForm.browserSubmit, hv]

/-- Witness for C2 at a concrete input: name filled, message filled, email
set to `"not-an-email"`, starting from the unsent state. -/
theorem contactForm_invalid_submission_blocked_witness :
    ContactForm.browserSubmit
      { name := "Ada", email := "not-an-email", subject := "", message := "hi" }
      { sent := false } = { sent := false } :=
  contactForm_invalid_submission_blocked
    { name := "Ada", email := "not-an-email", subject := "", message := "hi" }
    { sent := false } (Or.inl rfl)

/-! ## Claims about sections, static lists and the page shell -/

/-- With `once = true`, a block whose trigger has already fired never fires
again, whatever visibility events follow. -/
theorem viewTriggerCount_once_of_fired (evs : List Bool) :
    viewTriggerCount true true evs = 0 := by
  induction evs with
  | nil => rfl
  | cons v evs ih => cases v <;> simp [viewTriggerCount, ih]

/-- With `once = true`, the entrance transition fires at most once over any
sequence of visibility events. -/
theorem viewTriggerCount_once_le_one (fired : Bool) (evs : List Bool) :
    viewTriggerCount true fired evs ≤ 1 := by
  induction evs generalizing fired with
  | nil => simp [viewTriggerCount]
  | cons v evs ih =>
    cases v
    · simpa [viewTriggerCount] using ih fired
    · cases fired <;>
        simp [viewTriggerCount, viewTriggerCount_once_of_fired]

/-- C3: both motion blocks of `Section` (heading and content) are configured
with `viewport.once = true`, under which the entrance transition fires at
most once per page load over every sequence of visibility events; in
particular scrolling into view, out, and back in fires it exactly once. -/
theorem section_entrance_animation_once :
    Section.headingMotion.viewportOnce = true ∧
    Section.contentMotion.viewportOnce = true ∧
    (∀ evs : List Bool, viewTriggerCount true false evs ≤ 1) ∧
    viewTriggerCount true false [true, false, true] = 1 := by
  exact ⟨rfl, rfl, fun evs => viewTriggerCount_once_le_one false evs, rfl⟩

/-- C4: the projects gallery holds exactly one card per element of
`projects`, in declared order, with title, tag list and link taken from that
element unchanged; the skills grid renders the 9-entry `skills` list as-is,
in declared order, with no omissions. -/
theorem static_lists_render_in_declared_order :
    renderedGallery.length = projects.length ∧
    renderedGallery.map (fun c => c.title) = projects.map (fun p => p.title) ∧
    renderedGallery.map (fun c => c.tagPills) = projects.map (fun p => p.tags) ∧
    renderedGallery.map (fun c => c.href) = projects.map (fun p => p.href) ∧
    skills.length = 9 ∧
    renderedSkillsGrid = skills := by
  exact ⟨rfl, rfl, rfl, rfl, rfl, rfl⟩

/-- Counterexample to C5 as stated: the rendered page has the `#experience`
anchor (the Experience section), but no navbar link carries that href — the
navbar lists only About, Projects, Skills and Contact. -/
theorem navbar_missing_experience_link :
    "#experience" ∈ pageAnchors ∧
    "#experience" ∉ navbarLinks.map (fun l => l.href) := by
  decide

/-- C5 as amended: all five in-page anchors `#about`, `#projects`,
`#skills`, `#experience`, `#contact` exist as scroll targets, and every
navbar link href matches a section anchor; but the correspondence is not
onto — the navbar has no link for `#experience`. -/
theorem anchors_exist_navbar_links_covered :
    pageAnchors = ["#about", "#projects", "#skills", "#experience", "#contact"] ∧
    (navbarLinks.map (fun l => l.href)).all (fun a => pageAnchors.contains a) = true ∧
    navbarLinks.map (fun l => l.href) = ["#about", "#projects", "#skills", "#contact"] := by
  exact ⟨rfl, rfl, rfl⟩

/-- C8: with a failed 3D context the hero scene area renders the empty
placeholder whatever the loading state is (the page does not crash); the
Suspense fallback is `null`, so while assets load the area is blank; once
loaded with a working context, the scene renders. -/
theorem hero_scene_degrades_gracefully :
    (∀ loaded : Bool, Hero.renderCanvas false loaded = HeroSceneRender.empty) ∧
    Hero.suspenseFallback = none ∧
    Hero.renderCanvas true false = HeroSceneRender.empty ∧
    Hero.renderCanvas true true = HeroSceneRender.scene := by
  exact ⟨fun loaded => by cases loaded <;> rfl, rfl, rfl, rfl⟩

/-- C10: `ProjectCard` defaults its optional props — with `tags` omitted the
card renders no pills, with `href` omitted it links to the placeholder
`"#"`; when both are supplied they are used unchanged (`title` and
`description` are required fields of the props record). -/
theorem projectCard_optional_prop_defaults :
    (∀ t d : String,
      ProjectCard { title := t, description := d, tags := none, href := none } =
        { href := "#", title := t, description := d, tagPills := [] }) ∧
    (∀ (t d u : String) (ts : List String),
      ProjectCard { title := t, description := d, tags := some ts, href := some u } =
        { href := u, title := t, description := d, tagPills := ts }) := by
  constructor
  · intro t d; rfl
  · intro t d u ts; simp [ProjectCard]

/-! ## Claims about the 3D hero scene -/

/-- One orbit step under the hero scene's configuration keeps the zoom
distance within `[3, 8]`. -/
theorem applyOrbit_distance_bounds (cam : CameraState) (ev : OrbitEvent)
    (h1 : 3 ≤ cam.distance) (h2 : cam.distance ≤ 8) :
    3 ≤ (applyOrbit PortfolioScene.orbitControls cam ev).distance ∧
    (applyOrbit PortfolioScene.orbitControls cam ev).distance ≤ 8 := by
  cases ev with
  | rotate a b => exact ⟨h1, h2⟩
  | zoom d =>
    exact ⟨le_min (by norm_num [PortfolioScene.orbitControls]) (le_max_left _ _),
      min_le_left _ _⟩
  | pan dx dy =>
    simp only [applyOrbit, PortfolioScene.orbitControls, if_neg]
    exact ⟨h1, h2⟩

/-- Any sequence of orbit interactions keeps the zoom distance within
`[3, 8]` under the hero scene's configuration. -/
theorem runOrbit_distance_bounds (evs : List OrbitEvent) (cam : CameraState)
    (h1 : 3 ≤ cam.distance) (h2 : cam.distance ≤ 8) :
    3 ≤ (runOrbit cam evs).distance ∧ (runOrbit cam evs).distance ≤ 8 := by
  induction evs generalizing cam with
  | nil => exact ⟨h1, h2⟩
  | cons ev evs ih =>
    have hstep := applyOrbit_distance_bounds cam ev h1 h2
    have hrec := ih (applyOrbit PortfolioScene.orbitControls cam ev) hstep.1 hstep.2
    simpa [runOrbit, List.foldl_cons] using hrec

/-- C6: the hero scene's orbit controls are configured with panning disabled
and zoom clamped to `[3, 8]`; hence a pan interaction leaves the camera
state unchanged entirely, and over every sequence of orbit interactions a
camera starting within the zoom range never exceeds 8 units nor falls below
3 units. -/
theorem orbit_zoom_clamped_pan_disabled :
    PortfolioScene.orbitControls.enablePan = false ∧
    PortfolioScene.orbitControls.minDistance = 3 ∧
    PortfolioScene.orbitControls.maxDistance = 8 ∧
    (∀ (cam : CameraState) (dx dy : ℚ),
      applyOrbit PortfolioScene.orbitControls cam (OrbitEvent.pan dx dy) = cam) ∧
    (∀ (cam : CameraState) (evs : List OrbitEvent),
      3 ≤ cam.distance → cam.distance ≤ 8 →
      3 ≤ (runOrbit cam evs).distance ∧ (runOrbit cam evs).distance ≤ 8) := by
  refine ⟨rfl, rfl, rfl, fun cam dx dy => ?_,
    fun cam evs h1 h2 => runOrbit_distance_bounds evs cam h1 h2⟩
  simp [applyOrbit, PortfolioScene.orbitControls]

/-- Witness for C6 at a concrete input: a camera at distance 5, driven by a
large zoom-in, a pan attempt and a large zoom-out, stays within `[3, 8]`. -/
theorem orbit_zoom_clamped_pan_disabled_witness :
    3 ≤ (runOrbit { target := (0, 0, 0), distance := 5 }
      [OrbitEvent.zoom 100, OrbitEvent.pan 1 2, OrbitEvent.zoom (-200)]).distance ∧
    (runOrbit { target := (0, 0, 0), distance := 5 }
      [OrbitEvent.zoom 100, OrbitEvent.pan 1 2, OrbitEvent.zoom (-200)]).distance ≤ 8 :=
  orbit_zoom_clamped_pan_disabled.2.2.2.2 { target := (0, 0, 0), distance := 5 }
    [OrbitEvent.zoom 100, OrbitEvent.pan 1 2, OrbitEvent.zoom (-200)]
    (by norm_num) (by norm_num)

/-- Closed form of `SpinningTetra`'s pose after a sequence of frames: each
angle advances by the fixed rate times the total elapsed time. -/
theorem spinningTetra_run_closed (ds : List ℚ) (p : Pose) :
    SpinningTetra.run p ds =
      { rotX := p.rotX + ds.sum * (3/10), rotY := p.rotY + ds.sum * (5/10)
      , rotZ := p.rotZ } := by
  induction ds generalizing p with
  | nil => simp [SpinningTetra.run]
  | cons d ds ih =>
    have hc : SpinningTetra.run p (d :: ds) =
        SpinningTetra.run (SpinningTetra.step p d) ds := rfl
    rw [hc, ih]
    simp only [SpinningTetra.step, List.sum_cons, Pose.mk.injEq]
    refine ⟨by ring, by ring, trivial⟩

/-- Closed form of `FloatingKnot`'s pose after a sequence of frames. -/
theorem floatingKnot_run_closed (ds : List ℚ) (p : Pose) :
    FloatingKnot.run p ds =
      { rotX := p.rotX + ds.sum * (25/100), rotY := p.rotY
      , rotZ := p.rotZ + ds.sum * (15/100) } := by
  induction ds generalizing p with
  | nil => simp [FloatingKnot.run]
  | cons d ds ih =>
    have hc : FloatingKnot.run p (d :: ds) =
        FloatingKnot.run (FloatingKnot.step p d) ds := rfl
    rw [hc, ih]
    simp only [FloatingKnot.step, List.sum_cons, Pose.mk.injEq]
    refine ⟨by ring, trivial, by ring⟩

/-- C7: each per-frame update advances the rotation angles by the fixed rate
times the frame's elapsed time (tetrahedra: 0.3 on x, 0.5 on y; torus-knot:
0.25 on x, 0.15 on z), and the accumulated pose depends only on the total
elapsed time: two frame sequences with equal total elapsed time yield the
same pose (frame-rate independence). -/
theorem rotation_frame_rate_independent :
    (∀ (p : Pose) (d : ℚ), SpinningTetra.step p d =
      { rotX := p.rotX + d * (3/10), rotY := p.rotY + d * (5/10), rotZ := p.rotZ }) ∧
    (∀ (p : Pose) (d : ℚ), FloatingKnot.step p d =
      { rotX := p.rotX + d * (25/100), rotY := p.rotY, rotZ := p.rotZ + d * (15/100) }) ∧
    (∀ (p : Pose) (ds1 ds2 : List ℚ), ds1.sum = ds2.sum →
      SpinningTetra.run p ds1 = SpinningTetra.run p ds2 ∧
      FloatingKnot.run p ds1 = FloatingKnot.run p ds2) := by
  refine ⟨fun p d => rfl, fun p d => rfl, fun p ds1 ds2 hsum => ⟨?_, ?_⟩⟩
  · rw [spinningTetra_run_closed, spinningTetra_run_closed, hsum]
  · rw [floatingKnot_run_closed, floatingKnot_run_closed, hsum]

/-- Witness for C7 at a concrete input: two frames of half a second equal
one frame of a second, for both spinning objects, from the zero pose. -/
theorem rotation_frame_rate_independent_witness :
    SpinningTetra.run { rotX := 0, rotY := 0, rotZ := 0 } [1/2, 1/2] =
      SpinningTetra.run { rotX := 0, rotY := 0, rotZ := 0 } [1] ∧
    FloatingKnot.run { rotX := 0, rotY := 0, rotZ := 0 } [1/2, 1/2] =
      FloatingKnot.run { rotX := 0, rotY := 0, rotZ := 0 } [1] :=
  rotation_frame_rate_independent.2.2 { rotX := 0, rotY := 0, rotZ := 0 }
    [1/2, 1/2] [1] (by norm_num [List.sum_cons, List.sum_nil])

end Portfolio
